import Mathlib

/-!
Verification of the service-management library (linux backends).

The Go source is shallowly embedded: external effects (process execution,
the filesystem, signal delivery) are made explicit parameters or state, and
each Go function becomes a Lean function over those parameters, following
the source control flow statement by statement.
-/

namespace Service

/-- Result of a Go function call: a normal value, a returned non-nil
error (carrying its message), or a runtime panic (e.g. a slice bounds
violation). -/
inductive GoResult (α : Type) where
  | ok : α → GoResult α
  | err : String → GoResult α
  | panicked : GoResult α
deriving DecidableEq, Repr

/-- The error values the package can return, as distinguishable cases.
notInstalled is the sentinel ErrNotInstalled; the others carry the data
the Go code formats into the error message. -/
inductive GoErr where
  /-- the package-level sentinel ErrNotInstalled -/
  | notInstalled
  /-- boxrc.Install: Init already exists at the config path -/
  | alreadyExists (path : String)
  /-- runCommand: cmd.Start failed (message from the OS) -/
  | cmdStartFailed (command : String) (msg : String)
  /-- runCommand: cmd.Wait returned an ExitError with this status -/
  | exitError (status : Int)
  /-- runCommand: cmd.Wait failed without an exit status -/
  | cmdWaitFailed (command : String) (msg : String)
  /-- runCommand: launchctl reported success but wrote to stderr -/
  | cmdStderrFailed (command : String) (stderr : String)
  /-- a generic OS error from Create/Chmod/Symlink/Remove/ReadFile -/
  | osError (msg : String)
deriving DecidableEq, Repr

/-- strings.HasPrefix, on the underlying character lists. -/
def goHasPrefix (s pre : List Char) : Bool :=
  match s, pre with
  | _, [] => true
  | [], _ :: _ => false
  | c :: cs, p :: ps => c = p && goHasPrefix cs ps

/-- strings.HasSuffix. -/
def goHasSuffix (s suf : List Char) : Bool :=
  goHasPrefix s.reverse suf.reverse

/-- strings.Contains: some (possibly empty) substring of s equals sub. -/
def goContains (s sub : List Char) : Bool :=
  match s with
  | [] => goHasPrefix [] sub
  | c :: cs => goHasPrefix (c :: cs) sub || goContains cs sub

/-- strings.IndexRune: index of the first occurrence, -1 when absent. -/
def indexRune (s : List Char) (c : Char) : Int :=
  match s.findIdx? (· = c) with
  | some i => (i : Int)
  | none => -1

/-- Go string slicing data[lo:hi]: panics unless 0 ≤ lo ≤ hi ≤ len. -/
def goSlice (s : List Char) (lo hi : Int) : GoResult (List Char) :=
  if 0 ≤ lo ∧ lo ≤ hi ∧ hi ≤ (s.length : Int) then
    .ok ((s.take hi.toNat).drop lo.toNat)
  else
    .panicked

/-! ## Process invoker (runCommand and wrappers)

The observable behaviour of a spawned process is captured by ProcBehavior:
whether cmd.Start fails, how cmd.Wait ends, and what the process wrote
to its stdout and stderr pipes. -/

/-- How cmd.Wait ends when it returns a non-nil error. -/
inductive WaitFailure where
  /-- an exec.ExitError whose WaitStatus yields this exit status -/
  | exit (status : Int)
  /-- any other error (message attached) -/
  | other (msg : String)
deriving DecidableEq, Repr

/-- The behaviour of one spawned external process. waitRes = none means
cmd.Wait returned nil (zero exit status). -/
structure ProcBehavior where
  startFailure : Option String
  waitRes : Option WaitFailure
  stdout : String
  stderr : String
deriving DecidableEq, Repr

/-- runCommand(command, readStdout, arguments...): starts the process,
waits, and maps the outcome to (exitStatus, stdout, error). The stdout
buffer is only attached when readStdout, so otherwise the returned output
is empty. On a zero exit from launchctl, non-empty stderr not ending in
the benign in-progress message is turned into a failure. -/
def runCommand (command : String) (readStdout : Bool) (_arguments : List String)
    (p : ProcBehavior) : Int × String × Option GoErr :=
  let outString := if readStdout then p.stdout else ""
  match p.startFailure with
  | some m => (0, "", some (.cmdStartFailed command m))
  | none =>
    match p.waitRes with
    | some (.exit status) => (status, outString, some (.exitError status))
    | some (.other m) => (0, outString, some (.cmdWaitFailed command m))
    | none =>
      if command = "launchctl" ∧
          p.stderr ≠ "" ∧
          goHasSuffix p.stderr.data "Operation now in progress\n".data = false then
        (0, "", some (.cmdStderrFailed command p.stderr))
      else
        (0, outString, none)

/-- run(command, arguments...): discards exit status and output. -/
def runDiscard (command : String) (arguments : List String) (p : ProcBehavior) :
    Option GoErr :=
  (runCommand command false arguments p).2.2

/-- runWithOutput(command, arguments...). -/
def runWithOutput (command : String) (arguments : List String) (p : ProcBehavior) :
    Int × String × Option GoErr :=
  runCommand command true arguments p

/-! ## Execution-context detector (service_linux.go)

The files the detector reads are explicit inputs: the cgroup file of
process 1 as an optional list of scanned lines (none when opening fails),
and the proc stat record of the parent as an optional string (none when
reading fails). -/

/-- The constant maxlines of isInContainer. Its source comment calls it
the maximum number of lines to scan. -/
def maxlines : Nat := 5

/-- The scan loop of isInContainer: the loop condition consumes a line
and keeps going while the counter (incremented after each non-matching
line, starting at 0) has not exceeded maxlines. -/
def scanCgroupLines : List String → Nat → Bool
  | [], _ => false
  | l :: rest, lineCount =>
    if lineCount > maxlines then false
    else if goContains l.data "docker".data || goContains l.data "lxc".data then true
    else scanCgroupLines rest (lineCount + 1)

/-- isInContainer(cgroupPath): open failure returns the error; otherwise
the lines of the file are scanned for container-runtime substrings. -/
def isInContainer (cgroupLines : Option (List String)) : GoResult Bool :=
  match cgroupLines with
  | none => .err "open cgroup file failed"
  | some ls => .ok (scanCgroupLines ls 0)

/-- binaryName(pid): reads the proc stat record of the pid and slices out
data[binStart : binStart+binEnd], where binStart is one past the first
open parenthesis (0 when absent, since IndexRune yields -1) and binEnd
is the index of the first close parenthesis in the rest (-1 when
absent). The slice panics when its bounds are invalid. -/
def binaryName (statContent : Option String) : GoResult String :=
  match statContent with
  | none => .err "reading proc stat failed"
  | some contents =>
    let data := contents.data
    let binStart : Int := indexRune data '(' + 1
    let binEnd : Int := indexRune (data.drop binStart.toNat) ')'
    match goSlice data binStart (binStart + binEnd) with
    | .ok l => .ok ⟨l⟩
    | .err m => .err m
    | .panicked => .panicked

/-- The inputs isInteractive reads from the system: the process-1 cgroup
file, the parent pid, and the proc stat record of the parent. -/
structure SysState where
  cgroupLines : Option (List String)
  ppid : Nat
  parentStat : Option String
deriving DecidableEq, Repr

/-- isInteractive(): containerised processes are interactive; a parent
pid of 1 means non-interactive; otherwise the parent binary name decides
(on a read error the name defaults to the empty string). A panic inside
binaryName propagates. -/
def isInteractive (st : SysState) : GoResult Bool :=
  if isInContainer st.cgroupLines = .ok true then
    .ok true
  else if st.ppid = 1 then
    .ok false
  else
    match binaryName st.parentStat with
    | .ok binary => .ok (decide (binary ≠ "systemd"))
    | .err _ => .ok (decide (("" : String) ≠ "systemd"))
    | .panicked => .panicked

/-! ## The boxrc backend (Config, paths, lifecycle) -/

/-- The fields of Config the boxrc backend reads. -/
structure Config where
  name : String
  displayName : String
  arguments : List String
  workingDirectory : String
deriving DecidableEq, Repr

/-- boxrc.configPath(). -/
def configPath (c : Config) : String :=
  "/etc/boxinit.d/65" ++ c.name

/-- ServiceStatus is the Status enumeration. -/
inductive ServiceStatus where
  | unknown
  | running
  | stopped
deriving DecidableEq, Repr

/-- boxrc.Status(): runs the config-path script with the status verb; a
query error yields Unknown with that error; otherwise the output prefix
decides, defaulting to Unknown plus ErrNotInstalled. p is the behaviour
of the spawned status process. -/
def boxrcStatus (c : Config) (p : ProcBehavior) : ServiceStatus × Option GoErr :=
  match runWithOutput (configPath c) ["status"] p with
  | (_, _, some e) => (.unknown, some e)
  | (_, out, none) =>
    if goHasPrefix out.data "Running".data then (.running, none)
    else if goHasPrefix out.data "Stopped".data then (.stopped, none)
    else (.unknown, some .notInstalled)

/-- boxrc.Start(). -/
def boxrcStart (c : Config) (p : ProcBehavior) : Option GoErr :=
  runDiscard (configPath c) ["start"] p

/-- boxrc.Stop(). -/
def boxrcStop (c : Config) (p : ProcBehavior) : Option GoErr :=
  runDiscard (configPath c) ["stop"] p

/-- The observable steps of Restart and Run, in order. -/
inductive LifecycleEvent where
  /-- s.Stop() was invoked -/
  | stopCall
  /-- time.Sleep for this many milliseconds -/
  | sleepMs (n : Nat)
  /-- s.Start() was invoked -/
  | startCall
  /-- the Interface Start callback was invoked -/
  | startCallback
  /-- blocked on the signal channel registered for these signals -/
  | signalWait (signals : List String)
  /-- a caller-supplied RunWait option was invoked instead -/
  | customWait
  /-- the Interface Stop callback was invoked -/
  | stopCallback
deriving DecidableEq, Repr

/-- boxrc.Restart(): Stop; on error return it; otherwise sleep 50ms and
return the result of Start. pStop and pStart are the behaviours of the two
spawned control processes; the event list records what was invoked. -/
def boxrcRestart (c : Config) (pStop pStart : ProcBehavior) :
    List LifecycleEvent × Option GoErr :=
  match boxrcStop c pStop with
  | some e => ([.stopCall], some e)
  | none => ([.stopCall, .sleepMs 50, .startCall], boxrcStart c pStart)

/-- Whether the Option bag carries a caller-supplied RunWait function
(funcSingle falls back to the default signal wait when absent). -/
inductive RunWaitOption where
  | default
  | custom
deriving DecidableEq, Repr

/-- boxrc.Run(): the Interface Start callback, then the run-wait (by
default parking on a channel notified for SIGTERM and interrupt), then
the Interface Stop callback, whose result is returned. startRes and
stopRes are what the two callbacks return. -/
def boxrcRun (opt : RunWaitOption) (startRes stopRes : Option GoErr) :
    List LifecycleEvent × Option GoErr :=
  match startRes with
  | some e => ([.startCallback], some e)
  | none =>
    let waitEvent := match opt with
      | .default => LifecycleEvent.signalWait ["SIGTERM", "interrupt"]
      | .custom => .customWait
    ([.startCallback, waitEvent, .stopCallback], stopRes)

/-! ## Filesystem model and boxrc.Install -/

/-- The filesystem state Install manipulates: regular-file contents,
file modes, and symlink targets, each indexed by absolute path. -/
structure FS where
  file : String → Option String
  fileMode : String → Option Nat
  symlink : String → Option String

/-- Replace the contents of one regular file. -/
def FS.setFile (fs : FS) (path contents : String) : FS :=
  { fs with file := fun q => if q = path then some contents else fs.file q }

/-- The outcomes of the fallible external steps Install performs, in
source order: os.Create, s.execPath(), template Execute (on failure the
partially written output stays in the file), os.Chmod, os.Symlink. -/
structure InstallEnv where
  createFailure : Option GoErr
  execPathRes : Except GoErr String
  renderRes : Except (GoErr × String) String
  chmodFailure : Option GoErr
  symlinkFailure : Option GoErr

/-- boxrc.Install(): refuses when a file already exists at the config
path; otherwise creates the file, resolves the executable path, renders
the template into the file, chmods it 0755, and symlinks it into the
boxrc.d directory, returning at the first failing step. -/
def boxrcInstall (c : Config) (env : InstallEnv) (fs : FS) : FS × Option GoErr :=
  let confPath := configPath c
  if (fs.file confPath).isSome then
    (fs, some (.alreadyExists confPath))
  else
    match env.createFailure with
    | some e => (fs, some e)
    | none =>
      let fs1 := fs.setFile confPath ""
      match env.execPathRes with
      | .error e => (fs1, some e)
      | .ok _path =>
        match env.renderRes with
        | .error (e, partialText) => (fs1.setFile confPath partialText, some e)
        | .ok rendered =>
          let fs2 := fs1.setFile confPath rendered
          match env.chmodFailure with
          | some e => (fs2, some e)
          | none =>
            let fs3 := { fs2 with
              fileMode := fun q => if q = confPath then some 0o755 else fs2.fileMode q }
            match env.symlinkFailure with
            | some e => (fs3, some e)
            | none =>
              ({ fs3 with
                  symlink := fun q =>
                    if q = "/etc/boxrc.d/65" ++ c.name then some confPath
                    else fs3.symlink q },
               none)

/-! ## Template transforms and the rendered command line (C9)

The template functions from service_linux.go, and the one line of the
boxrc script that interpolates Path and Arguments into the cmd shell
variable. Re-parsing by a POSIX shell is modelled for the character
subset the rendering can produce: double quotes and backslashes (the
generated line contains no single quotes or expansions). -/

/-- The loop of strings.Replace, structured on a fuel argument that
bounds the number of iterations (each iteration consumes at least one
character, so the input length is enough fuel). -/
def replaceAllFuel (pat rep : List Char) : Nat → List Char → List Char
  | 0, s => s
  | _ + 1, [] => []
  | fuel + 1, c :: rest =>
    if pat ≠ [] ∧ goHasPrefix (c :: rest) pat then
      rep ++ replaceAllFuel pat rep fuel ((c :: rest).drop pat.length)
    else
      c :: replaceAllFuel pat rep fuel rest

/-- strings.Replace(s, old, new, -1): every non-overlapping occurrence,
left to right. The empty-pattern case never arises in the transforms. -/
def replaceAll (pat rep s : List Char) : List Char :=
  replaceAllFuel pat rep s.length s

/-- The cmd transform of the tf function map: wrap in double quotes,
escaping embedded double quotes with a backslash. -/
def tfCmd (s : List Char) : List Char :=
  '"' :: replaceAll ['"'] ['\\', '"'] s ++ ['"']

/-- The cmdEscape transform of the tf function map: replace each space
with the escape sequence backslash-x-2-0. -/
def tfCmdEscape (s : List Char) : List Char :=
  replaceAll [' '] "\\x20".data s

/-- The cmd assignment line of the boxrc script after template
execution: the text cmd= followed by a double quote, the Path, one
space plus the cmd-transformed token for each argument, and a closing
double quote. -/
def renderedCmdLine (path : List Char) (args : List (List Char)) : List Char :=
  "cmd=\"".data ++ path ++ (args.flatMap fun a => ' ' :: tfCmd a) ++ ['"']

/-- POSIX field splitting of a word list: unquoted blanks separate
fields, double quotes protect blanks, a backslash escapes the next
character (inside double quotes only when it is a quote or backslash).
Returns none on an unterminated quote or trailing backslash. curField
is none while no field has been started. -/
def shellSplit (inDoubleQuote : Bool) (curField : Option (List Char)) :
    List Char → Option (List (List Char))
  | [] =>
    if inDoubleQuote then none
    else
      match curField with
      | none => some []
      | some f => some [f]
  | c :: rest =>
    if inDoubleQuote then
      if c = '"' then
        shellSplit false (some (curField.getD [])) rest
      else if c = '\\' then
        match rest with
        | [] => none
        | d :: rest2 =>
          if d = '"' ∨ d = '\\' then
            shellSplit true (some (curField.getD [] ++ [d])) rest2
          else
            shellSplit true (some (curField.getD [] ++ ['\\', d])) rest2
      else
        shellSplit true (some (curField.getD [] ++ [c])) rest
    else
      if c = ' ' ∨ c = '\t' then
        match curField with
        | none => shellSplit false none rest
        | some f => (shellSplit false none rest).map (f :: ·)
      else if c = '"' then
        shellSplit true (some (curField.getD [])) rest
      else if c = '\\' then
        match rest with
        | [] => none
        | d :: rest2 => shellSplit false (some (curField.getD [] ++ [d])) rest2
      else
        shellSplit false (some (curField.getD [] ++ [c])) rest

/-- Parse one line into shell words, starting outside quotes. -/
def shellWords (line : List Char) : Option (List (List Char)) :=
  shellSplit false none line

/-- Field splitting of an unquoted parameter expansion: the expanded
text is split on runs of blanks with no quote processing (quotes in the
value stay literal characters). -/
def ifsSplit (s : List Char) : List (List Char) :=
  (s.splitOnP fun c => c = ' ' ∨ c = '\t' ∨ c = '\n').filter (· ≠ [])

/-- The round-trip the spec asks of the rendered cmd line: the line
parses as the single assignment word cmd=value, and the later unquoted
expansion of the cmd variable splits into the executable path followed
by exactly the original arguments. -/
def cmdLineReparsesTo (path : List Char) (args : List (List Char)) : Prop :=
  ∃ v, shellWords (renderedCmdLine path args) = some ["cmd=".data ++ v] ∧
    ifsSplit v = path :: args

/-! ## Helper lemmas -/

/-- Every error runCommand can return is a command-execution error, not
the not-installed sentinel. -/
theorem runCommand_error_ne_notInstalled (command : String) (readStdout : Bool)
    (args : List String) (p : ProcBehavior) (e : GoErr)
    (h : (runCommand command readStdout args p).2.2 = some e) :
    e ≠ GoErr.notInstalled := by
  obtain ⟨sf, wr, so, se⟩ := p
  simp only [runCommand] at h
  cases sf with
  | some m => simp at h; subst h; nofun
  | none =>
    cases wr with
    | some wf =>
      cases wf with
      | exit status => simp at h; subst h; nofun
      | other m => simp at h; subst h; nofun
    | none =>
      by_cases hc : command = "launchctl" ∧ se ≠ "" ∧
          goHasSuffix se.data "Operation now in progress\n".data = false
      · rw [if_pos hc] at h; simp at h; subst h; nofun
      · rw [if_neg hc] at h; simp at h

/-- A string that starts with Stopped does not start with Running. -/
theorem goHasPrefix_stopped_not_running (l : List Char)
    (h : goHasPrefix l "Stopped".data = true) :
    goHasPrefix l "Running".data = false := by
  have hs : "Stopped".data = ['S', 't', 'o', 'p', 'p', 'e', 'd'] := rfl
  have hr : "Running".data = ['R', 'u', 'n', 'n', 'i', 'n', 'g'] := rfl
  match l with
  | [] => rw [hs] at h; exact absurd h (by decide)
  | c :: cs =>
    rw [hs] at h
    rw [hr]
    simp only [goHasPrefix, Bool.and_eq_true, decide_eq_true_eq] at h ⊢
    simp only [Bool.and_eq_false_iff, decide_eq_false_iff_not]
    left
    rw [h.1]
    decide

/-- Install against an existing descriptor returns the already-exists
error with the filesystem untouched. -/
theorem boxrcInstall_of_exists (c : Config) (env : InstallEnv) (fs : FS)
    (h : (fs.file (configPath c)).isSome = true) :
    boxrcInstall c env fs = (fs, some (.alreadyExists (configPath c))) := by
  simp only [boxrcInstall]
  rw [if_pos h]

/-- A successful Install leaves a descriptor file at the config path. -/
theorem boxrcInstall_success_isSome (c : Config) (env : InstallEnv) (fs fs2 : FS)
    (h : boxrcInstall c env fs = (fs2, none)) :
    (fs2.file (configPath c)).isSome = true := by
  obtain ⟨cf, ep, rr, ch, sl⟩ := env
  simp only [boxrcInstall] at h
  split at h
  · simp [Prod.ext_iff] at h
  · cases cf with
    | some e => simp [Prod.ext_iff] at h
    | none =>
      cases ep with
      | error e => simp [Prod.ext_iff] at h
      | ok path =>
        cases rr with
        | error pr => simp [Prod.ext_iff] at h
        | ok rendered =>
          cases ch with
          | some e => simp [Prod.ext_iff] at h
          | none =>
            cases sl with
            | some e => simp [Prod.ext_iff] at h
            | none =>
              simp only [Prod.mk.injEq, and_true] at h
              rw [← h]
              simp [FS.setFile]

/-! ## Claim theorems -/

/-- C1: when the status command succeeds, stdout starting with Running
yields Running with no error, stdout starting with Stopped yields
Stopped with no error, and any other stdout yields Unknown with the
not-installed sentinel; when the status command itself fails, Status
returns Unknown with the error of that command, which is distinct from the
not-installed sentinel. -/
theorem boxrcStatus_decoding (c : Config) (p : ProcBehavior) :
    ((runWithOutput (configPath c) ["status"] p).2.2 = none →
      (goHasPrefix (runWithOutput (configPath c) ["status"] p).2.1.data "Running".data = true →
        boxrcStatus c p = (.running, none)) ∧
      (goHasPrefix (runWithOutput (configPath c) ["status"] p).2.1.data "Stopped".data = true →
        boxrcStatus c p = (.stopped, none)) ∧
      (goHasPrefix (runWithOutput (configPath c) ["status"] p).2.1.data "Running".data = false →
        goHasPrefix (runWithOutput (configPath c) ["status"] p).2.1.data "Stopped".data = false →
        boxrcStatus c p = (.unknown, some .notInstalled))) ∧
    (∀ e, (runWithOutput (configPath c) ["status"] p).2.2 = some e →
      boxrcStatus c p = (.unknown, some e) ∧ e ≠ GoErr.notInstalled) := by
  rcases hr : runWithOutput (configPath c) ["status"] p with ⟨code, out, errRes⟩
  constructor
  · intro hnone
    simp only at hnone
    subst hnone
    refine ⟨?_, ?_, ?_⟩
    · intro hrun
      simp only at hrun
      simp only [boxrcStatus, hr, hrun, if_true]
    · intro hstop
      simp only at hstop
      simp only [boxrcStatus, hr, goHasPrefix_stopped_not_running out.data hstop, hstop]
      simp
    · intro hrun hstop
      simp only at hrun hstop
      simp only [boxrcStatus, hr, hrun, hstop]
      simp
  · intro e he
    simp only at he
    subst he
    constructor
    · simp only [boxrcStatus, hr]
    · exact runCommand_error_ne_notInstalled (configPath c) true ["status"] p e
        (by rw [show runCommand (configPath c) true ["status"] p =
                  runWithOutput (configPath c) ["status"] p from rfl, hr])

/-- C1 witness: a succeeding status query printing Paused yields Unknown
plus the not-installed sentinel. -/
theorem boxrcStatus_decoding_witness :
    boxrcStatus ⟨"x", "", [], ""⟩ ⟨none, none, "Paused", ""⟩ =
      (.unknown, some .notInstalled) :=
  ((boxrcStatus_decoding ⟨"x", "", [], ""⟩ ⟨none, none, "Paused", ""⟩).1
    (by decide)).2.2 (by decide) (by decide)

/-- C2: isInteractive applies three rules in order: a detected container
wins and yields true; otherwise parent pid 1 yields false whatever the
parent stat record holds; otherwise the parent binary name parsed from
the stat record decides, interactive exactly when it is not systemd. -/
theorem isInteractive_decision_order (st : SysState) :
    (isInContainer st.cgroupLines = .ok true → isInteractive st = .ok true) ∧
    (isInContainer st.cgroupLines ≠ .ok true → st.ppid = 1 →
      isInteractive st = .ok false) ∧
    (isInContainer st.cgroupLines ≠ .ok true → st.ppid ≠ 1 →
      ∀ binary, binaryName st.parentStat = .ok binary →
        (isInteractive st = .ok true ↔ binary ≠ "systemd")) := by
  refine ⟨?_, ?_, ?_⟩
  · intro h
    simp only [isInteractive, h, if_true]
  · intro h1 h2
    simp only [isInteractive, if_neg h1, h2, if_true]
  · intro h1 h2 binary hb
    simp only [isInteractive, if_neg h1, if_neg h2, hb]
    constructor
    · intro hok
      have := GoResult.ok.inj hok
      exact of_decide_eq_true this
    · intro hne
      simp [hne]

/-- C2 witness: not containerised, parent pid 2, parent binary bash. -/
theorem isInteractive_decision_order_witness :
    isInteractive ⟨some ["0::/init"], 2, some "1 (bash) R"⟩ = .ok true :=
  ((isInteractive_decision_order ⟨some ["0::/init"], 2, some "1 (bash) R"⟩).2.2
    (by decide) (by decide) "bash" (by decide)).mpr (by decide)

/-- C3: Install against an existing descriptor fails with the
already-exists error and returns the filesystem unchanged; hence a
second Install after a successful one fails without modifying the
descriptor the first call wrote. -/
theorem boxrcInstall_already_installed :
    (∀ (c : Config) (env : InstallEnv) (fs : FS),
      (fs.file (configPath c)).isSome = true →
      boxrcInstall c env fs = (fs, some (.alreadyExists (configPath c)))) ∧
    (∀ (c : Config) (env env2 : InstallEnv) (fs fs2 : FS),
      boxrcInstall c env fs = (fs2, none) →
      boxrcInstall c env2 fs2 = (fs2, some (.alreadyExists (configPath c)))) := by
  constructor
  · intro c env fs h
    exact boxrcInstall_of_exists c env fs h
  · intro c env env2 fs fs2 h
    exact boxrcInstall_of_exists c env2 fs2 (boxrcInstall_success_isSome c env fs fs2 h)

/-- C3 witness: with the descriptor for service x present, Install
returns the already-exists error and the identical filesystem. -/
theorem boxrcInstall_already_installed_witness :
    boxrcInstall ⟨"x", "", [], ""⟩
        ⟨none, .ok "/bin/app", .ok "script", none, none⟩
        ⟨fun q => if q = "/etc/boxinit.d/65x" then some "old" else none,
         fun _ => none, fun _ => none⟩ =
      (⟨fun q => if q = "/etc/boxinit.d/65x" then some "old" else none,
        fun _ => none, fun _ => none⟩,
       some (.alreadyExists (configPath ⟨"x", "", [], ""⟩))) :=
  boxrcInstall_already_installed.1 ⟨"x", "", [], ""⟩
    ⟨none, .ok "/bin/app", .ok "script", none, none⟩
    ⟨fun q => if q = "/etc/boxinit.d/65x" then some "old" else none,
     fun _ => none, fun _ => none⟩ (by decide)

/-- C4: Restart invokes Stop first; a Stop error is returned with Start
never invoked; a successful Stop is followed by a 50ms sleep, then
Start, whose result Restart returns. -/
theorem boxrcRestart_policy (c : Config) (pStop pStart : ProcBehavior) :
    (∀ e, boxrcStop c pStop = some e →
      boxrcRestart c pStop pStart = ([.stopCall], some e)) ∧
    (boxrcStop c pStop = none →
      boxrcRestart c pStop pStart =
        ([.stopCall, .sleepMs 50, .startCall], boxrcStart c pStart)) := by
  constructor
  · intro e h
    simp only [boxrcRestart, h]
  · intro h
    simp only [boxrcRestart, h]

/-- C4 witness: a stop script exiting 1 makes Restart return that error
without invoking Start. -/
theorem boxrcRestart_policy_witness :
    boxrcRestart ⟨"x", "", [], ""⟩ ⟨none, some (.exit 1), "", ""⟩
        ⟨none, none, "", ""⟩ =
      ([.stopCall], some (.exitError 1)) :=
  (boxrcRestart_policy ⟨"x", "", [], ""⟩ ⟨none, some (.exit 1), "", ""⟩
    ⟨none, none, "", ""⟩).1 (.exitError 1) (by decide)

/-- C5: when the Start callback succeeds, Run under the default run-wait
option performs the Start callback, parks on the signal channel
registered for SIGTERM and interrupt, then performs the Stop callback
and returns its result. -/
theorem boxrcRun_default_wait (startRes stopRes : Option GoErr)
    (h : startRes = none) :
    boxrcRun .default startRes stopRes =
      ([.startCallback, .signalWait ["SIGTERM", "interrupt"], .stopCallback],
       stopRes) := by
  subst h
  rfl

/-- C5 witness at a failing Stop callback. -/
theorem boxrcRun_default_wait_witness :
    boxrcRun .default none (some (.osError "stop failed")) =
      ([.startCallback, .signalWait ["SIGTERM", "interrupt"], .stopCallback],
       some (.osError "stop failed")) :=
  boxrcRun_default_wait none (some (.osError "stop failed")) rfl

/-- C10: a failing Start callback makes Run return that error at once,
with no signal wait and no Stop callback. -/
theorem boxrcRun_start_error (opt : RunWaitOption) (stopRes : Option GoErr)
    (e : GoErr) :
    boxrcRun opt (some e) stopRes = ([.startCallback], some e) :=
  rfl

/-- C8: on a zero exit of launchctl, the success is overridden to a
failure exactly when stderr is non-empty and does not end with the
benign in-progress message; any other command with a zero exit succeeds
whatever it wrote to stderr. -/
theorem runCommand_launchctl_quirk (readStdout : Bool) (args : List String)
    (p : ProcBehavior) :
    (p.startFailure = none → p.waitRes = none →
      ((runCommand "launchctl" readStdout args p).2.2.isSome = true ↔
        (p.stderr ≠ "" ∧
          goHasSuffix p.stderr.data "Operation now in progress\n".data = false))) ∧
    (∀ command, command ≠ "launchctl" → p.startFailure = none → p.waitRes = none →
      (runCommand command readStdout args p).2.2 = none) := by
  obtain ⟨sf, wr, so, se⟩ := p
  constructor
  · intro h1 h2
    simp only at h1 h2
    subst h1; subst h2
    simp only [runCommand]
    split <;> rename_i hcond <;> simp_all
  · intro command hcmd h1 h2
    simp only at h1 h2
    subst h1; subst h2
    simp only [runCommand]
    split <;> rename_i hcond
    · exact absurd hcond.1 hcmd
    · rfl

/-- C8 witness: launchctl exiting zero with stderr text boom is turned
into a failure. -/
theorem runCommand_launchctl_quirk_witness :
    (runCommand "launchctl" true [] ⟨none, none, "", "boom"⟩).2.2.isSome = true :=
  ((runCommand_launchctl_quirk true [] ⟨none, none, "", "boom"⟩).1
    rfl rfl).mpr (by decide)

/-- C6 (code bug): the scan loop of isInContainer checks its counter
with a strict comparison after consuming a line, so a file whose first
five lines mention no container runtime is still reported as a
container when its sixth line mentions docker, although the maxlines
constant is documented as the maximum number of lines to scan. -/
theorem isInContainer_scans_sixth_line :
    (["0::/init", "1::/a", "2::/b", "3::/c", "4::/d"].all fun l =>
      !(goContains l.data "docker".data || goContains l.data "lxc".data)) = true ∧
    isInContainer (some ["0::/init", "1::/a", "2::/b", "3::/c", "4::/d", "5::/docker"]) =
      .ok true := by
  decide

/-- C7 (code bug): a readable cgroup file with no container marker, a
parent pid other than 1, and a readable but empty parent stat record
drive binaryName into an out-of-range slice, so isInteractive panics
instead of returning a boolean. -/
theorem isInteractive_panics_on_malformed_stat :
    isInteractive ⟨some ["0::/init"], 2, some ""⟩ = .panicked ∧
    binaryName (some "") = .panicked := by
  decide

/-- C9 (code bug): for Arguments dash-dash-flag and value-with-spaces,
the rendered cmd assignment line parses into three shell words rather
than one assignment, because the template nests the quoted tokens
inside an outer double-quoted string; re-parsing therefore cannot
return the original two arguments. -/
theorem renderedCmdLine_not_reparseable :
    shellWords (renderedCmdLine "/p".data ["--flag".data, "value with spaces".data]) =
      some ["cmd=/p --flag value".data, "with".data, "spaces".data] ∧
    ¬ cmdLineReparsesTo "/p".data ["--flag".data, "value with spaces".data] := by
  constructor
  · decide
  · rintro ⟨v, hv, _⟩
    have h1 : shellWords
        (renderedCmdLine "/p".data ["--flag".data, "value with spaces".data]) =
        some ["cmd=/p --flag value".data, "with".data, "spaces".data] := by decide
    rw [h1] at hv
    have hlen := congrArg (fun o => (o.getD []).length) hv
    simp at hlen

end Service
